import Mathlib

/-!
Verification of the data-access layer of the E-Commerce Sales Analytics
Dashboard (`src/components/data.py`): the dataset loader `load_data`, and the
`Data` class with its `apply_filters`, `set_filters` and `compute_kpis`
methods.  The dataframe is embedded as a list of order records, the stored
filter dictionary as a structure of `Option` fields (`None` becoming `none`),
and the pandas column operations as list maps/filters/sums over exact
rationals.
-/

/-- One row of the order dataset, restricted to the columns the data-access
layer reads: `order_date` (already coerced to a timestamp, modelled as an
integer day code), the two money columns, and the five categorical columns
used by the filter engine and the KPI aggregator. -/
structure OrderRecord where
  order_date : Int
  sales_per_order : ℚ
  profit_per_order : ℚ
  delivery_status : String
  shipping_type : String
  customer_region : String
  category_name : String
  customer_segment : String
deriving DecidableEq, Repr

/-- The `self.filters` dictionary of `Data.__init__`: five categorical keys
holding `None` or a list of allowed values, and `date_range` holding `None`
or a `(start, end)` pair of timestamps. -/
structure Filters where
  customer_region : Option (List String)
  category_name : Option (List String)
  customer_segment : Option (List String)
  delivery_status : Option (List String)
  shipping_type : Option (List String)
  date_range : Option (Int × Int)
deriving DecidableEq, Repr

/-- The date-range stage of `Data.apply_filters`: `if date_range:` keeps rows
with `start_date <= order_date <= end_date`, else the frame is unchanged. -/
def applyDate (dr : Option (Int × Int)) (df : List OrderRecord) : List OrderRecord :=
  match dr with
  | some p => df.filter (fun r => decide (p.1 ≤ r.order_date) && decide (r.order_date ≤ p.2))
  | none => df

/-- One categorical stage of `Data.apply_filters`: `if values and
len(values) > 0:` keeps rows whose column value is in `values`
(`df[column].isin(values)`), else the frame is unchanged. -/
def applyCat (get : OrderRecord → String) (values : Option (List String))
    (df : List OrderRecord) : List OrderRecord :=
  match values with
  | some vs => if 0 < vs.length then df.filter (fun r => decide (get r ∈ vs)) else df
  | none => df

/-- `Data.apply_filters` on a frame: the date-range stage followed by the five
categorical stages, in the order of the source's `for column in [...]` loop. -/
def applyFilters (fs : Filters) (df : List OrderRecord) : List OrderRecord :=
  applyCat (fun r => r.shipping_type) fs.shipping_type
    (applyCat (fun r => r.delivery_status) fs.delivery_status
      (applyCat (fun r => r.customer_segment) fs.customer_segment
        (applyCat (fun r => r.category_name) fs.category_name
          (applyCat (fun r => r.customer_region) fs.customer_region
            (applyDate fs.date_range df)))))

/-- The conjunction of active filter predicates, one conjunct per dimension:
an unset (or, for a categorical key, empty-list) entry contributes `true`. -/
def dateOk (dr : Option (Int × Int)) (d : Int) : Bool :=
  match dr with
  | some p => decide (p.1 ≤ d) && decide (d ≤ p.2)
  | none => true

/-- One categorical conjunct: membership in the allowed set when that set is
present and non-empty, `true` otherwise. -/
def catOk (values : Option (List String)) (s : String) : Bool :=
  match values with
  | some vs => if 0 < vs.length then decide (s ∈ vs) else true
  | none => true

/-- A record satisfies the Filter Set: the AND across all six dimensions. -/
def matchesFilters (fs : Filters) (r : OrderRecord) : Bool :=
  dateOk fs.date_range r.order_date &&
  catOk fs.customer_region r.customer_region &&
  catOk fs.category_name r.category_name &&
  catOk fs.customer_segment r.customer_segment &&
  catOk fs.delivery_status r.delivery_status &&
  catOk fs.shipping_type r.shipping_type

/-- The whole state of a `Data` object: the full frame `self.df`, the derived
frame `self.filtered_df`, and the stored filter dictionary `self.filters`. -/
structure DataState where
  df : List OrderRecord
  filtered_df : List OrderRecord
  filters : Filters
deriving DecidableEq, Repr

/-- The filter dictionary as initialised by `Data.__init__`: every entry
`None`. -/
def initFilters : Filters :=
  { customer_region := none
    category_name := none
    customer_segment := none
    delivery_status := none
    shipping_type := none
    date_range := none }

/-- `Data.__init__` after loading: `self.filtered_df = self.df.copy()` and all
filters unset. -/
def mkData (df : List OrderRecord) : DataState :=
  { df := df, filtered_df := df, filters := initFilters }

/-- `Data.apply_filters` as a state transformer: recompute `self.filtered_df`
from `self.df` and `self.filters`; nothing else changes. -/
def applyFiltersState (s : DataState) : DataState :=
  { s with filtered_df := applyFilters s.filters s.df }

/-- The keyword arguments of a `Data.set_filters(**kwargs)` call: for each
filter key, `none` means the key was not passed, `some v` means the key was
passed with value `v` (which may itself be `None`, i.e. `some none`). -/
structure FilterUpdate where
  customer_region : Option (Option (List String)) := none
  category_name : Option (Option (List String)) := none
  customer_segment : Option (Option (List String)) := none
  delivery_status : Option (Option (List String)) := none
  shipping_type : Option (Option (List String)) := none
  date_range : Option (Option (Int × Int)) := none
deriving DecidableEq, Repr

/-- `self.filters.update(kwargs)`: each key passed in the call replaces the
stored entry; each key not passed keeps its prior value. -/
def mergeFilters (fs : Filters) (u : FilterUpdate) : Filters :=
  { customer_region := u.customer_region.getD fs.customer_region
    category_name := u.category_name.getD fs.category_name
    customer_segment := u.customer_segment.getD fs.customer_segment
    delivery_status := u.delivery_status.getD fs.delivery_status
    shipping_type := u.shipping_type.getD fs.shipping_type
    date_range := u.date_range.getD fs.date_range }

/-- `Data.set_filters`: merge the keyword arguments into `self.filters`, then
call `self.apply_filters()`. -/
def setFiltersState (s : DataState) (u : FilterUpdate) : DataState :=
  applyFiltersState { s with filters := mergeFilters s.filters u }

/-- The seven scalars returned by `Data.compute_kpis`, in tuple order. -/
structure Kpis where
  total_revenue : ℚ
  total_profit : ℚ
  total_orders : Nat
  profit_margin : ℚ
  avg_order_value : ℚ
  on_time_rate : ℚ
  late_deliveries : Nat
deriving DecidableEq, Repr

/-- `Data.compute_kpis` evaluated on a frame (the body reads
`self.filtered_df`): column sums, row count, and the three guarded ratios. -/
def computeKpisList (df : List OrderRecord) : Kpis :=
  let total_revenue := (df.map OrderRecord.sales_per_order).sum
  let total_profit := (df.map OrderRecord.profit_per_order).sum
  let total_orders := df.length
  { total_revenue := total_revenue
    total_profit := total_profit
    total_orders := total_orders
    profit_margin := if total_revenue > 0 then total_profit / total_revenue * 100 else 0
    avg_order_value := if total_orders > 0 then total_revenue / (total_orders : ℚ) else 0
    on_time_rate :=
      if total_orders > 0 then
        (((df.filter (fun r => r.delivery_status == "Shipping on time")).length : ℚ)
          / (total_orders : ℚ)) * 100
      else 0
    late_deliveries := (df.filter (fun r => r.delivery_status == "Late delivery")).length }

/-- `Data.compute_kpis` on the object state: it reads `self.filtered_df`. -/
def computeKpisState (s : DataState) : Kpis :=
  computeKpisList s.filtered_df

/-- The five categorical filter keys of the filter dictionary. -/
inductive CatKey
  | region
  | category
  | segment
  | delivery
  | shipping
deriving DecidableEq, Repr

/-- Overwrite one categorical entry of a Filter Set. -/
def setCat (fs : Filters) (k : CatKey) (v : Option (List String)) : Filters :=
  match k with
  | .region => { fs with customer_region := v }
  | .category => { fs with category_name := v }
  | .segment => { fs with customer_segment := v }
  | .delivery => { fs with delivery_status := v }
  | .shipping => { fs with shipping_type := v }

/-- A raw CSV row as far as the loader's explicit logic is concerned: the
`order_date` column is still text (to be parsed with format `%d-%m-%Y`); the
other columns the data layer reads are carried through unchanged. -/
structure CsvRow where
  order_date : String
  sales_per_order : ℚ
  profit_per_order : ℚ
  delivery_status : String
  shipping_type : String
  customer_region : String
  category_name : String
  customer_segment : String
deriving DecidableEq, Repr

/-- The two load-time failure modes of `load_data`: the file cannot be read,
or some `order_date` value does not match the `%d-%m-%Y` format. -/
inductive ParseError
  | unreadable
  | badDateFormat
deriving DecidableEq, Repr

/-- Gregorian leap-year rule, as used by the `%d-%m-%Y` date parser. -/
def isLeapYear (y : Nat) : Bool :=
  y % 4 == 0 && (y % 100 != 0 || y % 400 == 0)

/-- Number of days in month `m` of year `y`. -/
def daysInMonth (m y : Nat) : Nat :=
  if m = 2 then (if isLeapYear y then 29 else 28)
  else if m = 4 ∨ m = 6 ∨ m = 9 ∨ m = 11 then 30
  else 31

/-- Modelled from the spec: the strict `DD-MM-YYYY` date parse performed by
`pd.to_datetime(..., format="%d-%m-%Y")` (a pandas library call whose body is
not part of this repository).  The text must be three dash-separated decimal
fields — day (1 or 2 digits), month (1 or 2 digits), year (4 digits) — naming
a valid calendar date; any other text fails. -/
def parseDateDDMMYYYY (s : String) : Option (Nat × Nat × Nat) :=
  match s.split (fun c => c = '-') with
  | [ds, ms, ys] =>
    match ds.toNat?, ms.toNat?, ys.toNat? with
    | some d, some m, some y =>
      if ds.length ≤ 2 ∧ ms.length ≤ 2 ∧ ys.length = 4 ∧
          1 ≤ m ∧ m ≤ 12 ∧ 1 ≤ d ∧ d ≤ daysInMonth m y then
        some (d, m, y)
      else none
    | _, _, _ => none
  | _ => none

/-- Encode a parsed calendar date as an order-preserving integer day code. -/
def dateCode (d m y : Nat) : Int :=
  ((y * 10000 + m * 100 + d : Nat) : Int)

/-- Convert one CSV row into an order record, failing if its date column is
not in `DD-MM-YYYY` format. -/
def parseRow (row : CsvRow) : Except ParseError OrderRecord :=
  match parseDateDDMMYYYY row.order_date with
  | some dmy =>
    .ok { order_date := dateCode dmy.1 dmy.2.1 dmy.2.2
          sales_per_order := row.sales_per_order
          profit_per_order := row.profit_per_order
          delivery_status := row.delivery_status
          shipping_type := row.shipping_type
          customer_region := row.customer_region
          category_name := row.category_name
          customer_segment := row.customer_segment }
  | none => .error .badDateFormat

/-- The column coercion `pd.to_datetime(df['order_date'], ...)` over all rows:
stops with the first row whose date fails to parse. -/
def parseRows : List CsvRow → Except ParseError (List OrderRecord)
  | [] => .ok []
  | row :: rest =>
    match parseRow row with
    | .ok r =>
      match parseRows rest with
      | .ok rs => .ok (r :: rs)
      | .error e => .error e
    | .error e => .error e

/-- Modelled from the spec: `load_data` — `pd.read_csv` (whose body is not
part of this repository) reads the file at the given path from an abstract
file system (`none` = unreadable), and the `order_date` column is then coerced
with the fixed `%d-%m-%Y` format. -/
def loadData (files : String → Option (List CsvRow)) (csv_file : String) :
    Except ParseError (List OrderRecord) :=
  match files csv_file with
  | none => .error .unreadable
  | some rows => parseRows rows

/-- Modelled from the spec: the `@st.cache_data` decorator on `load_data`
memoises successful results by argument; a raised error is not cached. -/
def cachedLoad (files : String → Option (List CsvRow)) (p : String)
    (c : List (String × List OrderRecord)) :
    Except ParseError (List OrderRecord) × List (String × List OrderRecord) :=
  match c.lookup p with
  | some recs => (.ok recs, c)
  | none =>
    match loadData files p with
    | .ok recs => (.ok recs, (p, recs) :: c)
    | .error e => (.error e, c)

/-- A concrete order record used to instantiate universally quantified
theorems. -/
def rec0 : OrderRecord :=
  { order_date := 20210101
    sales_per_order := 100
    profit_per_order := 10
    delivery_status := "Shipping on time"
    shipping_type := "Standard Class"
    customer_region := "West"
    category_name := "Office Supplies"
    customer_segment := "Consumer" }

/-- A concrete order record whose revenue is strictly negative. -/
def negRec : OrderRecord :=
  { order_date := 20210102
    sales_per_order := -100
    profit_per_order := 10
    delivery_status := "Shipping on time"
    shipping_type := "Standard Class"
    customer_region := "West"
    category_name := "Office Supplies"
    customer_segment := "Consumer" }

theorem applyDate_eq_filter (dr : Option (Int × Int)) (df : List OrderRecord) :
    applyDate dr df = df.filter (fun r => dateOk dr r.order_date) := by
  cases dr with
  | none => simp [applyDate, dateOk]
  | some p => rfl

theorem applyCat_eq_filter (get : OrderRecord → String) (v : Option (List String))
    (df : List OrderRecord) :
    applyCat get v df = df.filter (fun r => catOk v (get r)) := by
  cases v with
  | none => simp [applyCat, catOk]
  | some vs =>
    cases vs with
    | nil => simp [applyCat, catOk]
    | cons a t => simp [applyCat, catOk]

theorem applyFilters_eq_filter (fs : Filters) (df : List OrderRecord) :
    applyFilters fs df = df.filter (matchesFilters fs) := by
  unfold applyFilters
  rw [applyDate_eq_filter, applyCat_eq_filter, applyCat_eq_filter, applyCat_eq_filter,
    applyCat_eq_filter, applyCat_eq_filter]
  rw [List.filter_filter, List.filter_filter, List.filter_filter, List.filter_filter,
    List.filter_filter]
  refine List.filter_congr (fun r _ => ?_)
  unfold matchesFilters
  cases dateOk fs.date_range r.order_date <;>
    cases catOk fs.customer_region r.customer_region <;>
    cases catOk fs.category_name r.category_name <;>
    cases catOk fs.customer_segment r.customer_segment <;>
    cases catOk fs.delivery_status r.delivery_status <;>
    cases catOk fs.shipping_type r.shipping_type <;> rfl

theorem dateOk_iff (dr : Option (Int × Int)) (d : Int) :
    dateOk dr d = true ↔ ∀ s e : Int, dr = some (s, e) → s ≤ d ∧ d ≤ e := by
  cases dr with
  | none => simp [dateOk]
  | some p =>
    obtain ⟨s, e⟩ := p
    simp [dateOk]

theorem catOk_iff (v : Option (List String)) (s : String) :
    catOk v s = true ↔ ∀ vs, v = some vs → vs ≠ [] → s ∈ vs := by
  cases v with
  | none => simp [catOk]
  | some vs =>
    cases vs with
    | nil => simp [catOk]
    | cons a t => simp [catOk]

theorem parseRows_ok_iff (rows : List CsvRow) :
    (∃ recs, parseRows rows = .ok recs) ↔
      ∀ row ∈ rows, (parseDateDDMMYYYY row.order_date).isSome := by
  induction rows with
  | nil => simp [parseRows]
  | cons row rest ih =>
    constructor
    · rintro ⟨recs, h⟩
      unfold parseRows at h
      cases hp : parseRow row with
      | ok r =>
        rw [hp] at h
        cases hr : parseRows rest with
        | ok rs =>
          have hrest := ih.mp ⟨rs, hr⟩
          intro x hx
          rcases List.mem_cons.mp hx with h1 | h2
          · subst h1
            unfold parseRow at hp
            cases hd : parseDateDDMMYYYY x.order_date with
            | some v => simp [hd]
            | none => rw [hd] at hp; exact absurd hp (by simp)
          · exact hrest x h2
        | error e => rw [hr] at h; exact absurd h (by simp)
      | error e => rw [hp] at h; exact absurd h (by simp)
    · intro hall
      have hrow : (parseDateDDMMYYYY row.order_date).isSome :=
        hall row (List.mem_cons_self row rest)
      obtain ⟨rs, hrs⟩ := ih.mpr (fun x hx => hall x (List.mem_cons_of_mem row hx))
      cases hd : parseDateDDMMYYYY row.order_date with
      | none => rw [hd] at hrow; exact absurd hrow (by simp)
      | some dmy =>
        cases hp : parseRow row with
        | error e =>
          unfold parseRow at hp
          rw [hd] at hp
          exact absurd hp (by simp)
        | ok r =>
          exact ⟨r :: rs, by unfold parseRows; rw [hp, hrs]⟩

theorem parseRows_error_badDate (rows : List CsvRow)
    (hbad : ∃ row ∈ rows, parseDateDDMMYYYY row.order_date = none) :
    parseRows rows = .error ParseError.badDateFormat := by
  induction rows with
  | nil =>
    obtain ⟨x, hx, _⟩ := hbad
    exact absurd hx (List.not_mem_nil x)
  | cons row rest ih =>
    obtain ⟨x, hx, hbadx⟩ := hbad
    cases hp : parseRow row with
    | error e =>
      have he : e = ParseError.badDateFormat := by
        unfold parseRow at hp
        cases hd : parseDateDDMMYYYY row.order_date with
        | some v => rw [hd] at hp; exact absurd hp (by simp)
        | none =>
          rw [hd] at hp
          have := hp
          injection this with h
          exact h.symm
      subst he
      unfold parseRows
      rw [hp]
    | ok r =>
      have hxrest : x ∈ rest := by
        rcases List.mem_cons.mp hx with h1 | h2
        · subst h1
          unfold parseRow at hp
          rw [hbadx] at hp
          exact absurd hp (by simp)
        · exact h2
      unfold parseRows
      rw [hp, ih ⟨x, hxrest, hbadx⟩]

/-- C1: `apply_filters` derives the Filtered View from the full record set by
keeping exactly the records satisfying the conjunction of all active filters:
a set date range `(start, end)` demands `start <= order_date <= end` (both
endpoints inclusive), each categorical dimension whose filter value is a
non-empty set demands membership of the record's value in that set, and an
unset dimension imposes no restriction; the filters combine as an AND. -/
theorem apply_filters_keeps_exactly_matching (fs : Filters) (df : List OrderRecord) :
    applyFilters fs df = df.filter (matchesFilters fs) ∧
    ∀ r : OrderRecord, matchesFilters fs r = true ↔
      ((∀ s e : Int, fs.date_range = some (s, e) → s ≤ r.order_date ∧ r.order_date ≤ e) ∧
       (∀ vs, fs.customer_region = some vs → vs ≠ [] → r.customer_region ∈ vs) ∧
       (∀ vs, fs.category_name = some vs → vs ≠ [] → r.category_name ∈ vs) ∧
       (∀ vs, fs.customer_segment = some vs → vs ≠ [] → r.customer_segment ∈ vs) ∧
       (∀ vs, fs.delivery_status = some vs → vs ≠ [] → r.delivery_status ∈ vs) ∧
       (∀ vs, fs.shipping_type = some vs → vs ≠ [] → r.shipping_type ∈ vs)) := by
  refine ⟨applyFilters_eq_filter fs df, fun r => ?_⟩
  simp only [matchesFilters, Bool.and_eq_true, dateOk_iff, catOk_iff]
  tauto

/-- C3: every record of the Filtered View produced by `apply_filters` is a
record of the full record set — filtering never creates new rows. -/
theorem apply_filters_subset (fs : Filters) (df : List OrderRecord) (r : OrderRecord)
    (h : r ∈ applyFilters fs df) : r ∈ df := by
  rw [applyFilters_eq_filter] at h
  exact (List.mem_filter.mp h).1

/-- Witness for C3 at a concrete state: the unfiltered singleton frame. -/
theorem apply_filters_subset_witness :
    rec0 ∈ applyFilters initFilters [rec0] ∧ rec0 ∈ [rec0] :=
  ⟨by decide, apply_filters_subset initFilters [rec0] rec0 (by decide)⟩

/-- C4: filtering is idempotent — calling `apply_filters` a second time
without changing the stored filters yields the same `filtered_df` as the
first call. -/
theorem apply_filters_idempotent (s : DataState) :
    (applyFiltersState (applyFiltersState s)).filtered_df =
      (applyFiltersState s).filtered_df := rfl

/-- C5: for every categorical filter key, mapping the key to the empty list
produces exactly the same Filtered View as mapping it to `None`, for every
dataset and every setting of the other filters. -/
theorem empty_set_equals_none_filter (k : CatKey) (fs : Filters) (df : List OrderRecord) :
    applyFilters (setCat fs k (some [])) df = applyFilters (setCat fs k none) df := by
  cases k <;> simp [setCat, applyFilters, applyCat]

/-- C6: in the state after construction every filter entry is `None`, and
`compute_kpis` returns the KPI formulas computed over the full loaded
dataset; moreover applying the all-unset Filter Set changes nothing. -/
theorem unset_filters_kpis_full_dataset (df : List OrderRecord) :
    (mkData df).filters = initFilters ∧
    computeKpisState (mkData df) = computeKpisList df ∧
    applyFilters (mkData df).filters df = df :=
  ⟨rfl, rfl, rfl⟩

/-- C7: `set_filters` merges exactly the given keys into the stored Filter Set
(each key not passed keeps its prior value, via `Option.getD`), then
recomputes the Filtered View from the full frame; neither `set_filters` nor
`apply_filters` modifies the full record set, and `apply_filters` changes
nothing but the stored `filtered_df`. -/
theorem set_filters_merge_frame (s : DataState) (u : FilterUpdate) :
    (setFiltersState s u).df = s.df ∧
    (applyFiltersState s).df = s.df ∧
    (applyFiltersState s).filters = s.filters ∧
    (setFiltersState s u).filters = mergeFilters s.filters u ∧
    (setFiltersState s u).filtered_df = applyFilters (mergeFilters s.filters u) s.df ∧
    (mergeFilters s.filters u).customer_region
      = u.customer_region.getD s.filters.customer_region ∧
    (mergeFilters s.filters u).category_name
      = u.category_name.getD s.filters.category_name ∧
    (mergeFilters s.filters u).customer_segment
      = u.customer_segment.getD s.filters.customer_segment ∧
    (mergeFilters s.filters u).delivery_status
      = u.delivery_status.getD s.filters.delivery_status ∧
    (mergeFilters s.filters u).shipping_type
      = u.shipping_type.getD s.filters.shipping_type ∧
    (mergeFilters s.filters u).date_range
      = u.date_range.getD s.filters.date_range :=
  ⟨rfl, rfl, rfl, rfl, rfl, rfl, rfl, rfl, rfl, rfl, rfl⟩

/-- C8: when total revenue is strictly negative, `compute_kpis` returns profit
margin `0` rather than evaluating the margin formula — the guard is
`total_revenue > 0`, not `total_revenue != 0`. -/
theorem profit_margin_zero_on_negative_revenue (df : List OrderRecord)
    (h : (df.map OrderRecord.sales_per_order).sum < 0) :
    (computeKpisList df).profit_margin = 0 := by
  have hne : ¬ ((df.map OrderRecord.sales_per_order).sum > 0) := lt_asymm h
  simp [computeKpisList, hne]

/-- Witness for C8 at a concrete frame with revenue `-100`. -/
theorem profit_margin_zero_on_negative_revenue_witness :
    (([negRec].map OrderRecord.sales_per_order).sum < 0) ∧
    (computeKpisList [negRec]).profit_margin = 0 :=
  ⟨by norm_num [negRec],
    profit_margin_zero_on_negative_revenue [negRec] (by norm_num [negRec])⟩

/-- Counterexample to C2 as stated: on a one-row view with revenue `-100` and
profit `10` the total revenue is non-zero, yet the returned profit margin
(`0`) is not `100 * profit / revenue` (`-10`): the code's guard is
`revenue > 0`, not `revenue != 0`. -/
theorem compute_kpis_margin_formula_cex :
    (computeKpisList [negRec]).total_revenue ≠ 0 ∧
    (computeKpisList [negRec]).profit_margin ≠
      100 * (computeKpisList [negRec]).total_profit
        / (computeKpisList [negRec]).total_revenue := by
  have h1 : (computeKpisList [negRec]).total_revenue = -100 := by
    show ([negRec].map OrderRecord.sales_per_order).sum = -100
    norm_num [negRec]
  have h2 : (computeKpisList [negRec]).total_profit = 10 := by
    show ([negRec].map OrderRecord.profit_per_order).sum = 10
    norm_num [negRec]
  have hne : ¬ (([negRec].map OrderRecord.sales_per_order).sum > 0) := by
    norm_num [negRec]
  have h3 : (computeKpisList [negRec]).profit_margin = 0 := by
    norm_num [computeKpisList, negRec]
  rw [h1, h2, h3]
  norm_num

/-- C2 (amended): `compute_kpis` returns seven scalars — total revenue the sum
of `sales_per_order`, total profit the sum of `profit_per_order`, order count
the number of records, profit margin `100*profit/revenue` when revenue is
strictly positive and `0` otherwise, average order value `revenue/count` when
the count is positive and `0` otherwise, on-time rate
`100 * count(status on time) / count` when the count is positive and `0`
otherwise, and the raw count of late-delivery records; on a view with 0 rows
the three ratio KPIs are all `0` and no division error is raised. -/
theorem compute_kpis_seven_scalars (df : List OrderRecord) :
    (computeKpisList df).total_revenue = (df.map OrderRecord.sales_per_order).sum ∧
    (computeKpisList df).total_profit = (df.map OrderRecord.profit_per_order).sum ∧
    (computeKpisList df).total_orders = df.length ∧
    (computeKpisList df).profit_margin =
      (if (df.map OrderRecord.sales_per_order).sum > 0 then
        100 * (df.map OrderRecord.profit_per_order).sum
          / (df.map OrderRecord.sales_per_order).sum
      else 0) ∧
    (computeKpisList df).avg_order_value =
      (if df.length > 0 then (df.map OrderRecord.sales_per_order).sum / (df.length : ℚ)
      else 0) ∧
    (computeKpisList df).on_time_rate =
      (if df.length > 0 then
        100 * ((df.filter (fun r => r.delivery_status == "Shipping on time")).length : ℚ)
          / (df.length : ℚ)
      else 0) ∧
    (computeKpisList df).late_deliveries =
      (df.filter (fun r => r.delivery_status == "Late delivery")).length ∧
    (computeKpisList []).profit_margin = 0 ∧
    (computeKpisList []).avg_order_value = 0 ∧
    (computeKpisList []).on_time_rate = 0 := by
  refine ⟨rfl, rfl, rfl, ?_, rfl, ?_, rfl, by simp [computeKpisList], by simp [computeKpisList],
    by simp [computeKpisList]⟩
  · have hm : (computeKpisList df).profit_margin =
        (if (df.map OrderRecord.sales_per_order).sum > 0 then
          (df.map OrderRecord.profit_per_order).sum
            / (df.map OrderRecord.sales_per_order).sum * 100
        else 0) := rfl
    rw [hm]
    split_ifs with h
    · ring
    · rfl
  · have hr : (computeKpisList df).on_time_rate =
        (if df.length > 0 then
          (((df.filter (fun r => r.delivery_status == "Shipping on time")).length : ℚ)
            / (df.length : ℚ)) * 100
        else 0) := rfl
    rw [hr]
    split_ifs with h
    · ring
    · rfl

/-- C9: the loader parses the file at the given path into order records,
parsing the order-date column with the fixed `DD-MM-YYYY` format; it succeeds
exactly when the file is readable and every date matches the format, it fails
with the unreadable `ParseError` on an unreadable file, and with the bad-date
`ParseError` when some date does not match. -/
theorem load_data_parse_contract (files : String → Option (List CsvRow)) (p : String) :
    ((∃ recs, loadData files p = Except.ok recs) ↔
      ∃ rows, files p = some rows ∧
        ∀ row ∈ rows, (parseDateDDMMYYYY row.order_date).isSome) ∧
    (files p = none → loadData files p = Except.error ParseError.unreadable) ∧
    (∀ rows, files p = some rows →
      (∃ row ∈ rows, parseDateDDMMYYYY row.order_date = none) →
      loadData files p = Except.error ParseError.badDateFormat) := by
  refine ⟨⟨?_, ?_⟩, ?_, ?_⟩
  · rintro ⟨recs, h⟩
    unfold loadData at h
    cases hf : files p with
    | none => rw [hf] at h; exact absurd h (by simp)
    | some rows =>
      rw [hf] at h
      exact ⟨rows, rfl, (parseRows_ok_iff rows).mp ⟨recs, h⟩⟩
  · rintro ⟨rows, hf, hall⟩
    obtain ⟨recs, hr⟩ := (parseRows_ok_iff rows).mpr hall
    exact ⟨recs, by unfold loadData; rw [hf]; exact hr⟩
  · intro hf
    unfold loadData
    rw [hf]
  · intro rows hf hbad
    unfold loadData
    rw [hf]
    exact parseRows_error_badDate rows hbad

/-- C10: loading is deterministic in its input — a second load of the same
path through the cache returns exactly the record set of the first load, and
a load through an empty cache is the pure parse of the path. -/
theorem cached_load_deterministic (files : String → Option (List CsvRow)) (p : String)
    (c : List (String × List OrderRecord)) :
    (cachedLoad files p (cachedLoad files p c).2).1 = (cachedLoad files p c).1 ∧
    (cachedLoad files p []).1 = loadData files p := by
  constructor
  · cases hl : c.lookup p with
    | some recs => simp [cachedLoad, hl]
    | none =>
      cases hd : loadData files p with
      | ok recs => simp [cachedLoad, hl, hd, List.lookup]
      | error e => simp [cachedLoad, hl, hd]
  · cases hd : loadData files p with
    | ok recs => simp [cachedLoad, hd, List.lookup]
    | error e => simp [cachedLoad, hd, List.lookup]
